import Mathlib

/-!
Verification development for the OpenPlag PRO plagiarism-detection pipeline
(`main.py`).  The pure core of the pipeline — query derivation, URL
deduplication, scrape post-processing and truncation, per-pool threshold
filtering, merge/sort of matches, severity classification, and archive
insertion — is embedded shallowly below.  External library calls (the
sentence-splitting regex of `re.split`, the embedding model, the DuckDuckGo
search provider, HTTP fetching, and BeautifulSoup HTML text extraction) are
modelled as components of an `Env` record: the pipeline is proved correct for
every behaviour of those collaborators.  Similarity scores are modelled as
rationals; `None` results model raised exceptions caught by the code's
`try/except` blocks.
-/

namespace OpenPlagPro

/-- Python string slicing `s[:n]`: the first `n` characters of `s`. -/
def strTake (s : String) (n : Nat) : String := ⟨s.data.take n⟩

/-- Provenance of an evidence item: the local archive or the live web. -/
inductive Origin where
  | Local : Origin
  | Web : Origin
deriving DecidableEq

/-- The three severity bands of the report (`main.py` lines 243-251). -/
inductive Classification where
  | Critical : Classification
  | Moderate : Classification
  | Clean : Classification
deriving DecidableEq

/-- Observable side effects of one analysis run: an embedding-model similarity
call (`compute_semantic_similarity`), a search-provider call (`ddgs.text`),
or a page fetch (`requests.get` inside `scrape_url_content`). -/
inductive Event where
  | embed : String → String → Event
  | search : String → Event
  | fetch : String → Event
deriving DecidableEq

/-- An HTTP response as seen by `scrape_url_content`: `requests.get` returns a
status code and a body; the code reads only `response.content`. -/
structure HttpResponse where
  status : Nat
  content : String
deriving DecidableEq

/-- One scraped web evidence item (`{'source': url, 'content': content,
'type': 'Web'}` in `deep_web_search`). -/
structure WebItem where
  source : String
  content : String
deriving DecidableEq

/-- One row of the `submissions` table read back by `fetch_internal_db`. -/
structure DbEntry where
  student_name : String
  filename : String
  content : String
deriving DecidableEq

/-- One stored archive row, including the `content_hash` column that carries a
`UNIQUE` constraint (`init_db`). -/
structure Submission where
  student_name : String
  filename : String
  content : String
  content_hash : String
deriving DecidableEq

/-- One match surviving a threshold filter (`internal_matches` /
`web_matches` entries in `main`), tagged with its origin pool. -/
structure ScoredMatch where
  source : String
  score : ℚ
  origin : Origin
deriving DecidableEq

/-- The analysis report assembled by `main` lines 241-255: the full sorted
match list, the displayed top matches (`all_matches[:5]`), the top score
(`max_score`, 0 when no match survived), and the severity band. -/
structure Report where
  allMatches : List ScoredMatch
  topMatches : List ScoredMatch
  maxScore : ℚ
  classification : Classification
deriving DecidableEq

/-- External collaborators of the pipeline, modelled abstractly:
`splitSentences` is the `re.split` sentence-boundary heuristic (line 118);
`sim` is `compute_semantic_similarity` (embedding + cosine);
`searchResults` is `ddgs.text(query, max_results=2)`, `none` modelling a
raised provider exception; `page` is `requests.get`, `none` modelling any
network/timeout exception; `htmlText` is BeautifulSoup's script/style
stripping plus `get_text()`. -/
structure Env where
  splitSentences : String → List String
  sim : String → String → ℚ
  searchResults : String → Option (List String)
  page : String → Option HttpResponse
  htmlText : String → String

/-- Descending-by-length comparison used to model
`sorted(..., key=len, reverse=True)` (line 119): `a` may precede `b` iff
`b` is no longer than `a`. -/
def lenGE (a b : String) : Prop := b.length ≤ a.length

instance : DecidableRel lenGE := fun a b => Nat.decLe b.length a.length

instance : IsTotal String lenGE := ⟨fun a b => (Nat.le_total b.length a.length).imp id id⟩

instance : IsTrans String lenGE := ⟨fun _ _ _ h1 h2 => le_trans h2 h1⟩

/-- Descending-by-score comparison used to model
`sorted(..., key=lambda x: x['score'], reverse=True)` (line 241). -/
def scoreGE (a b : ScoredMatch) : Prop := b.score ≤ a.score

instance : DecidableRel scoreGE := fun a b => inferInstanceAs (Decidable (b.score ≤ a.score))

instance : IsTotal ScoredMatch scoreGE := ⟨fun a b => (le_total b.score a.score).imp id id⟩

instance : IsTrans ScoredMatch scoreGE := ⟨fun _ _ _ h1 h2 => le_trans h2 h1⟩

/-- Python `str.split(sep)` for a one-character separator, over the character
list of a string: used to model `text.splitlines()` with separator `'\n'`. -/
def splitChar (sep : Char) : List Char → List (List Char)
  | [] => [[]]
  | c :: rest =>
    if c = sep then [] :: splitChar sep rest
    else
      match splitChar sep rest with
      | [] => [[c]]
      | group :: groups => (c :: group) :: groups

/-- Python `line.split("  ")`: split on non-overlapping occurrences of two
consecutive spaces, scanning left to right. -/
def splitTwoSpace : List Char → List (List Char)
  | [] => [[]]
  | ' ' :: ' ' :: rest => [] :: splitTwoSpace rest
  | c :: rest =>
    match splitTwoSpace rest with
    | [] => [[c]]
    | group :: groups => (c :: group) :: groups

/-- Python `str.strip()`: drop leading and trailing whitespace. -/
def stripChars (l : List Char) : List Char :=
  ((l.dropWhile Char.isWhitespace).reverse.dropWhile Char.isWhitespace).reverse

/-- The line/chunk cleanup of `scrape_url_content` lines 101-105: strip each
line, split lines on double spaces into chunks, strip each chunk, drop empty
chunks (`if chunk`), rejoin with newlines.  Python `splitlines` is modelled
as splitting on the newline character. -/
def cleanLines (text : String) : String :=
  let lines := (splitChar '\n' text.data).map stripChars
  let chunks := (lines.map (fun line => (splitTwoSpace line).map stripChars)).flatten
  ⟨List.intercalate ['\n'] (chunks.filter (fun chunk => ¬ chunk.isEmpty))⟩

/-- What `scrape_url_content` does with a response that was obtained without
an exception: parse the body (`htmlText`), clean it up, truncate to the first
10,000 characters (line 106).  The response's status code is never read. -/
def scrapeResponse (env : Env) (response : HttpResponse) : String :=
  strTake (cleanLines (env.htmlText response.content)) 10000

/-- `scrape_url_content` (lines 87-108): fetch the URL; any exception
(`except: return ""`) yields the empty string, otherwise the cleaned,
truncated body text is returned. -/
def scrape_url_content (env : Env) (url : String) : String :=
  match env.page url with
  | none => ""
  | some response => scrapeResponse env response

/-- Query derivation of `deep_web_search` line 119:
`sorted([s for s in sentences if len(s) > 40], key=len, reverse=True)[:num_queries]`.
`List.insertionSort` is a stable sort, as is Python's `sorted`. -/
def long_sentences (sentences : List String) (num_queries : Nat) : List String :=
  (List.insertionSort lenGE (sentences.filter (fun s => 40 < s.length))).take num_queries

/-- The search loop of `deep_web_search` lines 123-131: for each derived
query, call the provider with the query truncated to 200 characters
(`query[:200]`) and append all result URLs; a provider exception
(`except: pass`) contributes nothing. -/
def potential_sources (env : Env) (text : String) (num_queries : Nat) : List String :=
  (long_sentences (env.splitSentences text) num_queries).foldl
    (fun acc query =>
      match env.searchResults (strTake query 200) with
      | some results => acc ++ results
      | none => acc) []

/-- URL deduplication of `deep_web_search` line 134:
`unique_urls = list(set(potential_sources))`.  Python's `set` guarantees no
ordering; `List.dedup` is one valid enumeration of the set. -/
def unique_urls (env : Env) (text : String) (num_queries : Nat) : List String :=
  (potential_sources env text num_queries).dedup

/-- The scrape loop of `deep_web_search` lines 142-146: fetch each unique URL
and keep a `WebItem` exactly when the scraped content is non-empty
(`if content:`). -/
def scraped_data (env : Env) (urls : List String) : List WebItem :=
  urls.filterMap fun url =>
    let content := scrape_url_content env url
    if content.isEmpty then none else some ⟨url, content⟩

/-- `deep_web_search` (lines 111-150), composed from query derivation, the
search loop, deduplication, and the scrape loop. -/
def deep_web_search (env : Env) (text : String) (num_queries : Nat := 3) : List WebItem :=
  scraped_data env (unique_urls env text num_queries)

/-- Search-provider calls issued by the loop at lines 124-126, one per derived
query, each with the query truncated to 200 characters. -/
def search_events (queries : List String) : List Event :=
  queries.map fun query => Event.search (strTake query 200)

/-- Page fetches issued by the scrape loop at line 143, one per unique URL. -/
def fetch_events (urls : List String) : List Event :=
  urls.map Event.fetch

/-- All network calls issued by one `deep_web_search` run: the provider calls
followed by the page fetches. -/
def web_search_events (env : Env) (text : String) (num_queries : Nat) : List Event :=
  search_events (long_sentences (env.splitSentences text) num_queries)
    ++ fetch_events (unique_urls env text num_queries)

/-- The internal check of `main` lines 225-229: score the document against
each archive entry and keep entries with score strictly above 0.4, labelled
`Internal: name (filename)`. -/
def internal_matches (env : Env) (text : String) (db_data : List DbEntry) : List ScoredMatch :=
  db_data.filterMap fun e =>
    let sim_score := env.sim text e.content
    if mkRat 4 10 < sim_score then
      some ⟨"Internal: " ++ e.student_name ++ " (" ++ e.filename ++ ")", sim_score, Origin.Local⟩
    else none

/-- The external check of `main` lines 232-238: score the document against
each scraped source and keep sources with score strictly above 0.3. -/
def web_matches (env : Env) (text : String) (sources : List WebItem) : List ScoredMatch :=
  sources.filterMap fun s =>
    let sim_score := env.sim text s.content
    if mkRat 3 10 < sim_score then some ⟨s.source, sim_score, Origin.Web⟩ else none

/-- `main` line 241: merge the two kept lists and sort descending by score
(stable, like Python's `sorted`). -/
def all_matches (internal web : List ScoredMatch) : List ScoredMatch :=
  List.insertionSort scoreGE (internal ++ web)

/-- `main` lines 243-247: the top score is 0 when no match survived, else the
head of the descending-sorted list. -/
def max_score : List ScoredMatch → ℚ
  | [] => 0
  | m :: _ => m.score

/-- The severity bands of `main` lines 243-251: `> 0.8` Critical, `> 0.5`
Moderate, otherwise Clean (the code shows the Clean banner for the zero-match
case and no raised banner for scores at or below 0.5).  The float literals
`0.8` and `0.5` are written `mkRat 8 10` and `mkRat 5 10`, the same rational
values in kernel-reducible form. -/
def classify (maxScore : ℚ) : Classification :=
  if mkRat 8 10 < maxScore then Classification.Critical
  else if mkRat 5 10 < maxScore then Classification.Moderate
  else Classification.Clean

/-- The per-pool similarity threshold: 0.4 for Local (line 228), 0.3 for Web
(line 237), written as explicit rationals. -/
def threshold : Origin → ℚ
  | Origin.Local => mkRat 4 10
  | Origin.Web => mkRat 3 10

/-- The "Run Rigorous Check" branch of `main` (lines 217-255): text shorter
than 50 characters is rejected with no report and no pipeline activity;
otherwise the internal check, the web check, and the merge/sort/classify
steps run.  Returns the report (if any) together with the list of
embedding-model and network calls the run issued, in order. -/
def runCheck (env : Env) (db_data : List DbEntry) (extracted_text : String) :
    Option Report × List Event :=
  if extracted_text.length < 50 then (none, [])
  else
    let internal := internal_matches env extracted_text db_data
    let scraped := deep_web_search env extracted_text 3
    let web := web_matches env extracted_text scraped
    let allM := all_matches internal web
    let maxS := max_score allM
    (some ⟨allM, allM.take 5, maxS, classify maxS⟩,
      (db_data.map fun e => Event.embed extracted_text e.content)
        ++ web_search_events env extracted_text 3
        ++ (scraped.map fun s => Event.embed extracted_text s.content))

/-- `save_to_db` (lines 62-74) over the `submissions` table of `init_db`: the
`INSERT` raises `sqlite3.IntegrityError` exactly when the `UNIQUE` constraint
on `content_hash` is violated, in which case `False` is returned and the
table is unchanged; otherwise the row is committed and `True` returned.
`md5` is the content fingerprint `hashlib.md5(...).hexdigest()`. -/
def save_to_db (md5 : String → String) (db : List Submission)
    (name filename content : String) : Bool × List Submission :=
  let content_hash := md5 content
  if ∃ s ∈ db, s.content_hash = content_hash then (false, db)
  else (true, db ++ [⟨name, filename, content, content_hash⟩])

/-- `extract_text_from_pdf` (lines 29-37): concatenate every page's text with
a trailing newline; if `pypdf` raises, return `str(e)` — the exception's
message — as if it were the extracted text.  The argument models the pypdf
call: `ok pages` is a successful parse, `error e` a raised exception. -/
def extract_text_from_pdf (pdf : Except String (List String)) : String :=
  match pdf with
  | Except.ok pages => pages.foldl (fun text page => text ++ page ++ "\n") ""
  | Except.error e => e

/-- `extract_text_from_docx` (lines 40-45): join paragraph texts with
newlines; if `python-docx` raises, return `str(e)`. -/
def extract_text_from_docx (doc : Except String (List String)) : String :=
  match doc with
  | Except.ok paras => String.intercalate "\n" paras
  | Except.error e => e

/-- A concrete collaborator environment for closed instantiations: the whole
document is one sentence, every similarity score is 9/10, the search
provider raises on every call, and every page fetch raises. -/
def envW : Env where
  splitSentences := fun t => [t]
  sim := fun _ _ => mkRat 9 10
  searchResults := fun _ => none
  page := fun _ => none
  htmlText := fun s => s

/-- A concrete collaborator environment whose page fetches all succeed with a
404 error page, used to instantiate the scraper claims. -/
def envS : Env where
  splitSentences := fun t => [t]
  sim := fun _ _ => mkRat 9 10
  searchResults := fun _ => none
  page := fun _ => some ⟨404, "hello"⟩
  htmlText := fun s => s

/-- A one-entry archive read-back used in closed instantiations. -/
def dbW : List DbEntry := [⟨"A", "f", "x"⟩]

/-- A 60-character document, long enough to pass the 50-character gate. -/
def docW : String := ⟨List.replicate 60 'a'⟩

/-- The report produced by running the check on `docW` against `dbW` in the
environment `envW`. -/
def reportW : Report :=
  match (runCheck envW dbW docW).1 with
  | some r => r
  | none => ⟨[], [], 0, Classification.Clean⟩

/-- The first match of `reportW`, used in closed instantiations. -/
def matchW : ScoredMatch :=
  match reportW.allMatches with
  | m :: _ => m
  | [] => ⟨"", 0, Origin.Local⟩

/-- A 50-character sentence, long enough to qualify as a search query. -/
def sentW : String := ⟨List.replicate 50 'b'⟩

/-- A concrete content fingerprint function for closed instantiations of the
archive (the identity, which is injective like a collision-free hash). -/
def md5W : String → String := fun s => s

/-- Every match kept by the internal check scores strictly above the Local
threshold and carries the Local origin tag. -/
theorem mem_internal_matches {env : Env} {text : String} {db_data : List DbEntry}
    {m : ScoredMatch} (hm : m ∈ internal_matches env text db_data) :
    threshold Origin.Local < m.score ∧ m.origin = Origin.Local := by
  simp only [internal_matches, List.mem_filterMap] at hm
  obtain ⟨e, _, heq⟩ := hm
  split at heq
  · cases heq
    exact ⟨by assumption, rfl⟩
  · cases heq

/-- Every match kept by the web check scores strictly above the Web threshold
and carries the Web origin tag. -/
theorem mem_web_matches {env : Env} {text : String} {sources : List WebItem}
    {m : ScoredMatch} (hm : m ∈ web_matches env text sources) :
    threshold Origin.Web < m.score ∧ m.origin = Origin.Web := by
  simp only [web_matches, List.mem_filterMap] at hm
  obtain ⟨s, _, heq⟩ := hm
  split at heq
  · cases heq
    exact ⟨by assumption, rfl⟩
  · cases heq

/-- When the check produces a report, the report is exactly the record built
at `main` lines 241-255 from the two kept-match lists. -/
theorem runCheck_report_eq {env : Env} {db_data : List DbEntry} {text : String} {report : Report}
    (h : (runCheck env db_data text).1 = some report) :
    report =
      { allMatches :=
          all_matches (internal_matches env text db_data)
            (web_matches env text (deep_web_search env text 3)),
        topMatches :=
          (all_matches (internal_matches env text db_data)
            (web_matches env text (deep_web_search env text 3))).take 5,
        maxScore :=
          max_score (all_matches (internal_matches env text db_data)
            (web_matches env text (deep_web_search env text 3))),
        classification :=
          classify (max_score (all_matches (internal_matches env text db_data)
            (web_matches env text (deep_web_search env text 3)))) } := by
  unfold runCheck at h
  split at h
  · exact absurd h (by simp)
  · exact (Option.some.inj h).symm

/-- C1: severity classification is a deterministic, total function of the
report's maximum score (`classify` is a Lean function, hence deterministic
and total): a score above 0.8 yields Critical, above 0.5 and at most 0.8
yields Moderate, and at most 0.5 yields Clean; the report's classification
field is exactly `classify` of its `maxScore`, and `maxScore` is 0 when no
matches survive the threshold filters. -/
theorem classify_bands_total (env : Env) (db_data : List DbEntry) (text : String) :
    (∀ x : ℚ,
      (mkRat 8 10 < x → classify x = Classification.Critical) ∧
      (mkRat 5 10 < x → x ≤ mkRat 8 10 → classify x = Classification.Moderate) ∧
      (x ≤ mkRat 5 10 → classify x = Classification.Clean)) ∧
    mkRat 8 10 = (0.8 : ℚ) ∧ mkRat 5 10 = (0.5 : ℚ) ∧
    (∀ report : Report, (runCheck env db_data text).1 = some report →
      report.classification = classify report.maxScore ∧
      (report.allMatches = [] → report.maxScore = 0)) := by
  refine ⟨fun x => ⟨fun h8 => if_pos h8, fun h5 h8 => ?_, fun h5 => ?_⟩,
    by rw [Rat.mkRat_eq_div]; norm_num, by rw [Rat.mkRat_eq_div]; norm_num,
    fun report h => ?_⟩
  · rw [classify, if_neg (not_lt.mpr h8), if_pos h5]
  · have h8 : ¬ mkRat 8 10 < x := not_lt.mpr (le_trans h5 (by decide))
    rw [classify, if_neg h8, if_neg (not_lt.mpr h5)]
  · have heq := runCheck_report_eq h
    subst heq
    refine ⟨rfl, fun hnil => ?_⟩
    have hnil2 : all_matches (internal_matches env text db_data)
        (web_matches env text (deep_web_search env text 3)) = [] := hnil
    show max_score (all_matches (internal_matches env text db_data)
        (web_matches env text (deep_web_search env text 3))) = 0
    rw [hnil2, max_score]

/-- Closed instantiation of C1: each band hit at a concrete score, and the
classification of a concretely computed report. -/
theorem classify_bands_total_witness :
    classify (mkRat 9 10) = Classification.Critical ∧
    classify (mkRat 6 10) = Classification.Moderate ∧
    classify (mkRat 2 10) = Classification.Clean ∧
    reportW.classification = classify reportW.maxScore :=
  ⟨((classify_bands_total envW dbW docW).1 (mkRat 9 10)).1 (by decide),
   ((classify_bands_total envW dbW docW).1 (mkRat 6 10)).2.1 (by decide) (by decide),
   ((classify_bands_total envW dbW docW).1 (mkRat 2 10)).2.2 (by decide),
   ((classify_bands_total envW dbW docW).2.2.2 reportW rfl).1⟩

/-- C2: query derivation keeps exactly the sentence-like units longer than 40
characters (every derived query is such a unit, and when at most
`max_queries` units qualify, every qualifying unit is kept), sorted by
length descending, truncated to the first `max_queries`; an input with no
qualifying unit yields no queries; and the query string sent to the search
provider, `strTake query 200`, never exceeds 200 characters. -/
theorem long_sentences_derivation (sentences : List String) (max_queries : Nat) :
    (∀ q ∈ long_sentences sentences max_queries, 40 < q.length ∧ q ∈ sentences) ∧
    (long_sentences sentences max_queries).Pairwise (fun a b => b.length ≤ a.length) ∧
    (long_sentences sentences max_queries).length ≤ max_queries ∧
    ((sentences.filter (fun s => 40 < s.length)).length ≤ max_queries →
      ∀ s ∈ sentences, 40 < s.length → s ∈ long_sentences sentences max_queries) ∧
    ((∀ s ∈ sentences, s.length ≤ 40) → long_sentences sentences max_queries = []) ∧
    (∀ q : String, (strTake q 200).length ≤ 200) := by
  refine ⟨fun q hq => ?_, ?_, List.length_take_le _ _, fun hlen s hs h40 => ?_,
    fun hshort => ?_, fun q => List.length_take_le _ _⟩
  · have hq2 := List.mem_of_mem_take hq
    have hq3 := (List.mem_insertionSort lenGE).mp hq2
    have hq4 := List.mem_filter.mp hq3
    exact ⟨by simpa using hq4.2, hq4.1⟩
  · exact ((List.sorted_insertionSort lenGE _).sublist (List.take_sublist _ _))
  · have hmem : s ∈ List.insertionSort lenGE (sentences.filter (fun s => 40 < s.length)) :=
      (List.mem_insertionSort lenGE).mpr (List.mem_filter.mpr ⟨hs, by simpa using h40⟩)
    have hle : (List.insertionSort lenGE (sentences.filter (fun s => 40 < s.length))).length
        ≤ max_queries := by
      rw [(List.perm_insertionSort lenGE _).length_eq]
      exact hlen
    rw [long_sentences, List.take_of_length_le hle]
    exact hmem
  · have hfil : sentences.filter (fun s => 40 < s.length) = [] :=
      List.filter_eq_nil_iff.mpr (fun a ha => by simpa using not_lt.mpr (hshort a ha))
    rw [long_sentences, hfil]
    simp [List.insertionSort]

/-- Closed instantiation of C2: a 50-character sentence qualifies and is
derived; a list of only short units derives nothing. -/
theorem long_sentences_derivation_witness :
    (40 < sentW.length ∧ sentW ∈ [sentW, "hi"]) ∧
    sentW ∈ long_sentences [sentW, "hi"] 3 ∧
    long_sentences ["hi"] 3 = [] :=
  ⟨(long_sentences_derivation [sentW, "hi"] 3).1 sentW (by decide),
   (long_sentences_derivation [sentW, "hi"] 3).2.2.2.1 (by decide) sentW (by decide) (by decide),
   (long_sentences_derivation ["hi"] 3).2.2.2.2.1 (by decide)⟩

/-- C3: every match in the report's merged list scores strictly above the
threshold of its origin tag — above 0.4 for Local matches, above 0.3 for Web
matches (and those thresholds are the literals of the source). -/
theorem matches_above_threshold (env : Env) (db_data : List DbEntry) (text : String)
    (report : Report) (h : (runCheck env db_data text).1 = some report) :
    (∀ m ∈ report.allMatches, threshold m.origin < m.score) ∧
    threshold Origin.Local = (0.4 : ℚ) ∧ threshold Origin.Web = (0.3 : ℚ) := by
  refine ⟨fun m hm => ?_, by rw [threshold, Rat.mkRat_eq_div]; norm_num,
    by rw [threshold, Rat.mkRat_eq_div]; norm_num⟩
  have heq := runCheck_report_eq h
  subst heq
  simp only [all_matches, List.mem_insertionSort, List.mem_append] at hm
  rcases hm with hm | hm
  · obtain ⟨hs, ho⟩ := mem_internal_matches hm
    rw [ho]
    exact hs
  · obtain ⟨hs, ho⟩ := mem_web_matches hm
    rw [ho]
    exact hs

/-- Closed instantiation of C3: the first match of a concretely computed
report scores above the threshold of its origin. -/
theorem matches_above_threshold_witness :
    threshold matchW.origin < matchW.score :=
  (matches_above_threshold envW dbW docW reportW rfl).1 matchW (by decide)

/-- C4: the scraper is a total function (it cannot raise); any fetch failure
yields the empty string, and the returned excerpt never exceeds 10,000
characters. -/
theorem scrape_url_content_total_bounded (env : Env) (url : String) :
    (env.page url = none → scrape_url_content env url = "") ∧
    (scrape_url_content env url).length ≤ 10000 := by
  constructor
  · intro h
    rw [scrape_url_content, h]
  · rw [scrape_url_content]
    cases env.page url with
    | none => exact Nat.zero_le _
    | some response => exact List.length_take_le _ _

/-- Closed instantiation of C4: a fetch that raises yields the empty
string. -/
theorem scrape_url_content_total_bounded_witness :
    scrape_url_content envW "http://x" = "" :=
  (scrape_url_content_total_bounded envW "http://x").1 rfl

/-- C5: result URLs are deduplicated by exact equality before fetching: the
unique-URL list has no duplicates, is no longer than the raw collected list,
contains exactly the collected URLs, the per-URL fetch events of a run are
pairwise distinct (no URL fetched twice), and `deep_web_search` scrapes
exactly the deduplicated list. -/
theorem unique_urls_no_refetch (env : Env) (text : String) (num_queries : Nat) :
    (unique_urls env text num_queries).Nodup ∧
    (unique_urls env text num_queries).length ≤ (potential_sources env text num_queries).length ∧
    (∀ u, u ∈ unique_urls env text num_queries ↔ u ∈ potential_sources env text num_queries) ∧
    (fetch_events (unique_urls env text num_queries)).Nodup ∧
    deep_web_search env text num_queries = scraped_data env (unique_urls env text num_queries) :=
  ⟨List.nodup_dedup _, (List.dedup_sublist _).length_le, fun _ => List.mem_dedup,
   (List.nodup_dedup _).map (fun a b hab => by injection hab), rfl⟩

/-- C6: archive insert returns false iff the content fingerprint is already
present; a duplicate insert leaves the archive unchanged; a fresh fingerprint
returns true and appends exactly that one entry; and after a successful
insert, re-inserting the same content fails. -/
theorem save_to_db_fingerprint_unique (md5 : String → String) (db : List Submission)
    (name filename content name2 filename2 : String) :
    ((save_to_db md5 db name filename content).1 = false ↔
      ∃ s ∈ db, s.content_hash = md5 content) ∧
    ((∃ s ∈ db, s.content_hash = md5 content) →
      (save_to_db md5 db name filename content).2 = db) ∧
    ((∀ s ∈ db, s.content_hash ≠ md5 content) →
      (save_to_db md5 db name filename content).1 = true ∧
      (save_to_db md5 db name filename content).2
        = db ++ [⟨name, filename, content, md5 content⟩]) ∧
    ((save_to_db md5 db name filename content).1 = true →
      (save_to_db md5 (save_to_db md5 db name filename content).2 name2 filename2 content).1
        = false) := by
  by_cases h : ∃ s ∈ db, s.content_hash = md5 content
  · refine ⟨by simp [save_to_db, h], fun _ => by simp [save_to_db, h],
      fun hall => ?_, fun htrue => ?_⟩
    · obtain ⟨s, hs, hh⟩ := h
      exact absurd hh (hall s hs)
    · simp [save_to_db, h] at htrue
  · refine ⟨by simp [save_to_db, h], fun hex => absurd hex h,
      fun _ => by simp [save_to_db, h], fun _ => ?_⟩
    have h2 : (save_to_db md5 db name filename content).2
        = db ++ [⟨name, filename, content, md5 content⟩] := by
      simp [save_to_db, h]
    have hex : ∃ s ∈ db ++ [(⟨name, filename, content, md5 content⟩ : Submission)],
        s.content_hash = md5 content :=
      ⟨⟨name, filename, content, md5 content⟩, by simp, rfl⟩
    rw [h2]
    simp only [save_to_db, if_pos hex]

/-- Closed instantiation of C6: inserting into an empty archive succeeds, and
re-inserting the same content then fails. -/
theorem save_to_db_fingerprint_unique_witness :
    (save_to_db md5W [] "A" "essay.txt" "c").1 = true ∧
    (save_to_db md5W (save_to_db md5W [] "A" "essay.txt" "c").2 "B" "copy.txt" "c").1 = false :=
  ⟨((save_to_db_fingerprint_unique md5W [] "A" "essay.txt" "c" "B" "copy.txt").2.2.1
      (by simp)).1,
   (save_to_db_fingerprint_unique md5W [] "A" "essay.txt" "c" "B" "copy.txt").2.2.2
      (((save_to_db_fingerprint_unique md5W [] "A" "essay.txt" "c" "B" "copy.txt").2.2.1
        (by simp)).1)⟩

/-- C7: a document whose extracted text is shorter than 50 characters is
rejected before the pipeline starts — no report and an empty event list, so
no embedding, search-provider, or page-fetch call occurs; text of length at
least 50 proceeds to a report. -/
theorem short_input_rejected_no_calls (env : Env) (db_data : List DbEntry) (text : String) :
    (text.length < 50 → runCheck env db_data text = (none, [])) ∧
    (50 ≤ text.length → (runCheck env db_data text).1.isSome = true) := by
  constructor
  · intro h
    rw [runCheck, if_pos h]
  · intro h
    rw [runCheck, if_neg (not_lt.mpr h)]
    rfl

/-- Closed instantiation of C7: a 5-character document is rejected with no
events; a 60-character document yields a report. -/
theorem short_input_rejected_no_calls_witness :
    runCheck envW dbW "short" = (none, []) ∧ (runCheck envW dbW docW).1.isSome = true :=
  ⟨(short_input_rejected_no_calls envW dbW "short").1 (by decide),
   (short_input_rejected_no_calls envW dbW docW).2 (by decide)⟩

/-- C8: the report's match list is a permutation of the kept Local and Web
match lists, sorted descending by score, and the displayed report carries
exactly the first 5 of that sorted sequence — hence at most 5 matches. -/
theorem report_merge_sorted_top5 (env : Env) (db_data : List DbEntry) (text : String)
    (report : Report) (h : (runCheck env db_data text).1 = some report) :
    report.allMatches.Pairwise (fun a b => b.score ≤ a.score) ∧
    report.allMatches.Perm
      (internal_matches env text db_data ++ web_matches env text (deep_web_search env text 3)) ∧
    report.topMatches = report.allMatches.take 5 ∧
    report.topMatches.length ≤ 5 := by
  have heq := runCheck_report_eq h
  subst heq
  exact ⟨List.sorted_insertionSort scoreGE _, List.perm_insertionSort scoreGE _, rfl,
    List.length_take_le _ _⟩

/-- Closed instantiation of C8 on a concretely computed report. -/
theorem report_merge_sorted_top5_witness :
    reportW.topMatches = reportW.allMatches.take 5 ∧ reportW.topMatches.length ≤ 5 :=
  ⟨(report_merge_sorted_top5 envW dbW docW reportW rfl).2.2.1,
   (report_merge_sorted_top5 envW dbW docW reportW rfl).2.2.2⟩

/-- C9: when PDF or DOCX extraction raises, the exception's message string is
returned as the extracted text, and a message of length at least 50 flows
through the pipeline exactly like genuine document text: the run produces a
report and the message is scored (embedded) against every archive entry. -/
theorem extraction_error_text_scored (env : Env) (db_data : List DbEntry) (msg : String)
    (h : 50 ≤ msg.length) :
    extract_text_from_pdf (Except.error msg) = msg ∧
    extract_text_from_docx (Except.error msg) = msg ∧
    runCheck env db_data (extract_text_from_pdf (Except.error msg)) = runCheck env db_data msg ∧
    (runCheck env db_data (extract_text_from_pdf (Except.error msg))).1.isSome = true ∧
    (∀ e ∈ db_data, Event.embed msg e.content
      ∈ (runCheck env db_data (extract_text_from_pdf (Except.error msg))).2) := by
  refine ⟨rfl, rfl, rfl, ?_, fun e he => ?_⟩
  · show (runCheck env db_data msg).1.isSome = true
    rw [runCheck, if_neg (not_lt.mpr h)]
    rfl
  · show Event.embed msg e.content ∈ (runCheck env db_data msg).2
    rw [runCheck, if_neg (not_lt.mpr h)]
    exact List.mem_append_left _ (List.mem_append_left _ (List.mem_map_of_mem _ he))

/-- Closed instantiation of C9: a 60-character error message is analysed
exactly like a genuine document of the same text. -/
theorem extraction_error_text_scored_witness :
    runCheck envW dbW (extract_text_from_pdf (Except.error docW)) = runCheck envW dbW docW :=
  (extraction_error_text_scored envW dbW docW (by decide)).2.2.1

/-- C10: the scraper never inspects the HTTP status: responses with the same
body and different status codes yield the same excerpt, a fetch that
completes without raising returns the body's extracted text whatever the
status, and a non-empty excerpt (for example from a 404 page) becomes a Web
evidence item of the run. -/
theorem scrape_status_blind (env : Env) (url : String) (status status2 : Nat) (body : String)
    (urls : List String) :
    scrapeResponse env ⟨status, body⟩ = scrapeResponse env ⟨status2, body⟩ ∧
    (env.page url = some ⟨status, body⟩ →
      scrape_url_content env url = scrapeResponse env ⟨status, body⟩ ∧
      (url ∈ urls → (scrapeResponse env ⟨status, body⟩).isEmpty = false →
        WebItem.mk url (scrapeResponse env ⟨status, body⟩) ∈ scraped_data env urls)) := by
  refine ⟨rfl, fun hp => ⟨?_, fun hu hne => ?_⟩⟩
  · rw [scrape_url_content, hp]
  · refine List.mem_filterMap.mpr ⟨url, hu, ?_⟩
    have hs : scrape_url_content env url = scrapeResponse env ⟨status, body⟩ := by
      rw [scrape_url_content, hp]
    simp [hs, hne]

/-- Closed instantiation of C10: a 404 response's body text is scraped and
enters the evidence list. -/
theorem scrape_status_blind_witness :
    scrape_url_content envS "http://x" = scrapeResponse envS ⟨404, "hello"⟩ ∧
    WebItem.mk "http://x" (scrapeResponse envS ⟨404, "hello"⟩) ∈ scraped_data envS ["http://x"] :=
  ⟨((scrape_status_blind envS "http://x" 404 500 "hello" ["http://x"]).2 rfl).1,
   ((scrape_status_blind envS "http://x" 404 500 "hello" ["http://x"]).2 rfl).2
     (by decide) (by decide)⟩

end OpenPlagPro
